import Mathlib

/-!
# Amortization & Growth Engine — shallow embedding

Shallow embedding of `app.py` (smart-fund-backend): the five financial
formulas and the three Flask scenario endpoints.

Modelling conventions:
* Python floats are modelled by exact rationals `ℚ`; `math.pow` with the
  integer exponents used here is `zpow`/`pow` on `ℚ`.  In this exact model a
  numeric field can never be NaN or infinite.
* Year counts (`tenure_years`, `payments_made_years`,
  `optimization_period_years`) are modelled as `ℤ`, following the spec's data
  model (tenures and periods are integers); the code only ever iterates or is
  queried on integer years.
* Request parameters may be absent (`data.get` returns `None`) or non-numeric;
  `Param` captures numeric / missing / non-numeric.  A `None` or string that
  reaches a numeric comparison or arithmetic operation raises `TypeError` in
  Python; the endpoint models surface that as `ApiResult.exn`.
* The endpoints return JSON dicts.  The validation-failure dict carries exactly
  the keys `status` and `message` (`ApiResult.errorResponse`); the other dicts
  are modelled by per-endpoint structures.  The `guidanceMessage` and
  `recommendation` strings are presentation-only interpolated text and are not
  modelled; the two-number `chartData` payload is.
-/

/-- `FIXED_LOAN_INTEREST_RATE = 8` (percent, annual). -/
def FIXED_LOAN_INTEREST_RATE : ℚ := 8

/-- `FIXED_LOAN_TENURE_YEARS = 30`. -/
def FIXED_LOAN_TENURE_YEARS : ℤ := 30

/-- `calculate_emi(principal, annual_rate, tenure_years)` from `app.py`. -/
def calculate_emi (principal annual_rate : ℚ) (tenure_years : ℤ) : ℚ :=
  if principal ≤ 0 ∨ tenure_years ≤ 0 then 0
  else
    let monthly_rate := annual_rate / 100 / 12
    let num_payments := tenure_years * 12
    if monthly_rate = 0 then principal / (num_payments : ℚ)
    else principal * monthly_rate / (1 - (1 + monthly_rate) ^ (-num_payments))

/-- `calculate_total_interest(principal, emi, tenure_years)` from `app.py`. -/
def calculate_total_interest (principal emi : ℚ) (tenure_years : ℤ) : ℚ :=
  emi * ((tenure_years * 12 : ℤ) : ℚ) - principal

/-- `calculate_sip_future_value(monthly_investment, annual_rate, tenure_years)`
from `app.py` (annuity-due future value). -/
def calculate_sip_future_value (monthly_investment annual_rate : ℚ)
    (tenure_years : ℤ) : ℚ :=
  if monthly_investment ≤ 0 ∨ tenure_years ≤ 0 then 0
  else
    let monthly_rate := annual_rate / 100 / 12
    let num_months := tenure_years * 12
    if monthly_rate = 0 then monthly_investment * ((num_months : ℤ) : ℚ)
    else monthly_investment * ((1 + monthly_rate) ^ num_months - 1) / monthly_rate
      * (1 + monthly_rate)

/-- `calculate_required_sip(future_value, annual_rate, tenure_years)` from
`app.py` (algebraic inverse of the annuity-due future value). -/
def calculate_required_sip (future_value annual_rate : ℚ)
    (tenure_years : ℤ) : ℚ :=
  if future_value ≤ 0 ∨ tenure_years ≤ 0 then 0
  else
    let monthly_rate := annual_rate / 100 / 12
    let num_months := tenure_years * 12
    if monthly_rate = 0 then future_value / ((num_months : ℤ) : ℚ)
    else future_value * monthly_rate /
      (((1 + monthly_rate) ^ num_months - 1) * (1 + monthly_rate))

/-- `calculate_remaining_loan_balance(principal, annual_rate,
original_tenure_years, payments_made_years)` from `app.py`. -/
def calculate_remaining_loan_balance (principal annual_rate : ℚ)
    (original_tenure_years payments_made_years : ℤ) : ℚ :=
  if principal ≤ 0 ∨ original_tenure_years ≤ 0 ∨ payments_made_years < 0 ∨
      payments_made_years > original_tenure_years then principal
  else if payments_made_years = 0 then principal
  else
    let monthly_rate := annual_rate / 100 / 12
    let payments_made := payments_made_years * 12
    if monthly_rate = 0 then
      principal * (1 - (payments_made_years : ℚ) / (original_tenure_years : ℚ))
    else
      let emi := calculate_emi principal annual_rate original_tenure_years
      max 0 (principal * (1 + monthly_rate) ^ payments_made -
        emi * ((1 + monthly_rate) ^ payments_made - 1) / monthly_rate)

/-- Result status strings used by the endpoints. -/
inductive Status where
  | success
  | warning
  | not_achievable
  | error
deriving DecidableEq, Repr

/-- A request parameter as obtained by `data.get(...)`: a number, absent
(`None`), or some non-numeric JSON value such as a string.  (Python `bool`s,
which pass `isinstance(x, (int, float))`, are subsumed by `num 0` / `num 1`.) -/
inductive Param where
  | num (x : ℚ)
  | missing
  | nonNumeric
deriving DecidableEq, Repr

/-- The `optimization_period_years` parameter: an integer year count (the
spec's data model fixes it as an integer), absent, or non-numeric. -/
inductive PeriodParam where
  | val (z : ℤ)
  | missing
  | nonNumeric
deriving DecidableEq, Repr

/-- Outcome of one endpoint call: an uncaught Python exception (`TypeError`
from using `None`/a string in numeric context), the validation-failure JSON
dict — which carries exactly a status and a message and nothing else — or a
normal response record. -/
inductive ApiResult (α : Type) where
  | exn
  | errorResponse (status : Status) (message : String)
  | ok (resp : α)
deriving DecidableEq

/-- The validation-failure message of all three endpoints. -/
def invalidRiskMsg : String :=
  "Invalid risk appetite provided. Must be a positive number."

/-- The risk-appetite parameter is rejected (`status: error`) iff it is
missing, non-numeric, or a number `≤ 0`. -/
def riskInvalid : Param → Prop
  | Param.num x => x ≤ 0
  | Param.missing => True
  | Param.nonNumeric => True

instance : DecidablePred riskInvalid := fun p => by
  cases p <;> simp [riskInvalid] <;> infer_instance

/-- Response record of `/api/calculate-net-zero-interest` (non-error path). -/
structure NZResponse where
  status : Status
  monthlyEMI : ℚ
  monthlyInvestment : ℚ
  totalLoanInterestPayable : ℚ
  estimatedInvestmentFutureValue : ℚ
  chartLoanInterest : ℚ
  chartInvestmentGain : ℚ
deriving DecidableEq, Repr

/-- Body of `calculate_net_zero_interest` after validation, on numeric
`loan_amount` and `monthly_budget` (lines 83–127 of `app.py`). -/
def netZeroInterestCore (loan_amount monthly_budget expected_return_rate : ℚ) :
    NZResponse :=
  let standard_emi :=
    calculate_emi loan_amount FIXED_LOAN_INTEREST_RATE FIXED_LOAN_TENURE_YEARS
  let total_loan_interest_payable :=
    calculate_total_interest loan_amount standard_emi FIXED_LOAN_TENURE_YEARS
  let required_monthly_investment :=
    calculate_required_sip total_loan_interest_payable expected_return_rate
      FIXED_LOAN_TENURE_YEARS
  let available_for_investment := monthly_budget - standard_emi
  if available_for_investment < 0 then
    { status := Status.not_achievable
      monthlyEMI := standard_emi
      monthlyInvestment := 0
      totalLoanInterestPayable := total_loan_interest_payable
      estimatedInvestmentFutureValue := 0
      chartLoanInterest := total_loan_interest_payable
      chartInvestmentGain := 0 }
  else if required_monthly_investment > available_for_investment then
    let investment_fv_with_available :=
      calculate_sip_future_value available_for_investment expected_return_rate
        FIXED_LOAN_TENURE_YEARS
    { status := Status.warning
      monthlyEMI := standard_emi
      monthlyInvestment := available_for_investment
      totalLoanInterestPayable := total_loan_interest_payable
      estimatedInvestmentFutureValue := investment_fv_with_available
      chartLoanInterest := total_loan_interest_payable
      chartInvestmentGain := investment_fv_with_available }
  else
    { status := Status.success
      monthlyEMI := standard_emi
      monthlyInvestment := required_monthly_investment
      totalLoanInterestPayable := total_loan_interest_payable
      estimatedInvestmentFutureValue := total_loan_interest_payable
      chartLoanInterest := total_loan_interest_payable
      chartInvestmentGain := total_loan_interest_payable }

/-- Endpoint `/api/calculate-net-zero-interest` (lines 70–127 of `app.py`):
validate the risk appetite; a missing or non-numeric `loan_amount` or
`monthly_budget` then raises `TypeError` at its first numeric use
(`principal <= 0` inside `calculate_emi`, resp. `monthly_budget - standard_emi`). -/
def calculate_net_zero_interest (loan_amount monthly_budget risk_appetite : Param) :
    ApiResult NZResponse :=
  match risk_appetite with
  | Param.num r =>
    if r ≤ 0 then ApiResult.errorResponse Status.error invalidRiskMsg
    else
      match loan_amount, monthly_budget with
      | Param.num la, Param.num mb => ApiResult.ok (netZeroInterestCore la mb r)
      | _, _ => ApiResult.exn
  | _ => ApiResult.errorResponse Status.error invalidRiskMsg

/-- The loop-body condition of `calculate_min_time_net_zero` at tenure `t`
(lines 145–165 of `app.py`): the tenure is not skipped
(`monthly_budget - current_emi < 0` is false) and the investment future value
reaches the total interest. -/
def netZeroCond (loan_amount monthly_budget expected_return_rate : ℚ)
    (t : ℤ) : Prop :=
  let current_emi := calculate_emi loan_amount FIXED_LOAN_INTEREST_RATE t
  0 ≤ monthly_budget - current_emi ∧
    calculate_total_interest loan_amount current_emi t ≤
      calculate_sip_future_value (monthly_budget - current_emi)
        expected_return_rate t

instance (la mb r : ℚ) (t : ℤ) : Decidable (netZeroCond la mb r t) := by
  unfold netZeroCond; infer_instance

/-- The ascending `for tenure in range(1, 31)` search: `minTenureSearch la mb r n`
is the first `t ∈ {1, …, n}` (ascending, first match wins) satisfying
`netZeroCond`, or `none`. -/
def minTenureSearch (loan_amount monthly_budget expected_return_rate : ℚ) :
    ℕ → Option ℤ
  | 0 => none
  | n + 1 =>
    match minTenureSearch loan_amount monthly_budget expected_return_rate n with
    | some t => some t
    | none =>
      if netZeroCond loan_amount monthly_budget expected_return_rate
          ((n : ℤ) + 1) then some ((n : ℤ) + 1)
      else none

/-- Response record of `/api/calculate-min-time-net-zero` (non-error path). -/
structure MTResponse where
  status : Status
  minTimeYears : ℤ
  monthlyEMI : ℚ
  monthlyInvestment : ℚ
  totalLoanInterestPayable : ℚ
  estimatedInvestmentFutureValue : ℚ
  chartLoanInterest : ℚ
  chartInvestmentGain : ℚ
deriving DecidableEq, Repr

/-- Body of `calculate_min_time_net_zero` after validation, on numeric
`loan_amount` and `monthly_budget` (lines 142–201 of `app.py`). -/
def minTimeNetZeroCore (loan_amount monthly_budget expected_return_rate : ℚ) :
    MTResponse :=
  match minTenureSearch loan_amount monthly_budget expected_return_rate 30 with
  | some tenure =>
    let current_emi := calculate_emi loan_amount FIXED_LOAN_INTEREST_RATE tenure
    let current_total_interest :=
      calculate_total_interest loan_amount current_emi tenure
    let current_available_investment := monthly_budget - current_emi
    let current_investment_fv :=
      calculate_sip_future_value current_available_investment
        expected_return_rate tenure
    { status := Status.success
      minTimeYears := tenure
      monthlyEMI := current_emi
      monthlyInvestment := current_available_investment
      totalLoanInterestPayable := current_total_interest
      estimatedInvestmentFutureValue := current_investment_fv
      chartLoanInterest := current_total_interest
      chartInvestmentGain := current_investment_fv }
  | none =>
    let standard_emi_at_max_tenure :=
      calculate_emi loan_amount FIXED_LOAN_INTEREST_RATE FIXED_LOAN_TENURE_YEARS
    let available_for_investment_at_max_tenure :=
      monthly_budget - standard_emi_at_max_tenure
    let investment_fv_at_max_tenure :=
      if 0 < available_for_investment_at_max_tenure then
        calculate_sip_future_value available_for_investment_at_max_tenure
          expected_return_rate FIXED_LOAN_TENURE_YEARS
      else 0
    let total_interest_at_max_tenure :=
      calculate_total_interest loan_amount standard_emi_at_max_tenure
        FIXED_LOAN_TENURE_YEARS
    { status := Status.not_achievable
      minTimeYears := FIXED_LOAN_TENURE_YEARS
      monthlyEMI := standard_emi_at_max_tenure
      monthlyInvestment :=
        if 0 < available_for_investment_at_max_tenure then
          available_for_investment_at_max_tenure
        else 0
      totalLoanInterestPayable := total_interest_at_max_tenure
      estimatedInvestmentFutureValue := investment_fv_at_max_tenure
      chartLoanInterest := total_interest_at_max_tenure
      chartInvestmentGain := investment_fv_at_max_tenure }

/-- Endpoint `/api/calculate-min-time-net-zero` (lines 129–201 of `app.py`):
validate the risk appetite; a missing or non-numeric `loan_amount` or
`monthly_budget` raises `TypeError` in the first loop iteration. -/
def calculate_min_time_net_zero (loan_amount monthly_budget risk_appetite : Param) :
    ApiResult MTResponse :=
  match risk_appetite with
  | Param.num r =>
    if r ≤ 0 then ApiResult.errorResponse Status.error invalidRiskMsg
    else
      match loan_amount, monthly_budget with
      | Param.num la, Param.num mb => ApiResult.ok (minTimeNetZeroCore la mb r)
      | _, _ => ApiResult.exn
  | _ => ApiResult.errorResponse Status.error invalidRiskMsg

/-- Response record of `/api/calculate-max-growth` (non-error path). -/
structure MGResponse where
  status : Status
  monthlyEMI : ℚ
  monthlyInvestment : ℚ
  optimizationPeriodYears : ℤ
  estimatedInvestmentFutureValue : ℚ
  remainingLoanBalance : ℚ
  netWealthAtPeriodEnd : ℚ
  chartInvestmentFV : ℚ
  chartRemainingLoan : ℚ
deriving DecidableEq, Repr

/-- Body of `calculate_max_growth` after validation, on numeric inputs
(lines 217–250 of `app.py`). -/
def maxGrowthCore (loan_amount monthly_budget expected_return_rate : ℚ)
    (optimization_period_years : ℤ) : MGResponse :=
  let standard_emi :=
    calculate_emi loan_amount FIXED_LOAN_INTEREST_RATE FIXED_LOAN_TENURE_YEARS
  let monthly_investment := monthly_budget - standard_emi
  if monthly_investment ≤ 0 then
    { status := Status.not_achievable
      monthlyEMI := standard_emi
      monthlyInvestment := 0
      optimizationPeriodYears := optimization_period_years
      estimatedInvestmentFutureValue := 0
      remainingLoanBalance :=
        calculate_remaining_loan_balance loan_amount FIXED_LOAN_INTEREST_RATE
          FIXED_LOAN_TENURE_YEARS optimization_period_years
      netWealthAtPeriodEnd := 0
      chartInvestmentFV := 0
      chartRemainingLoan :=
        calculate_remaining_loan_balance loan_amount FIXED_LOAN_INTEREST_RATE
          FIXED_LOAN_TENURE_YEARS optimization_period_years }
  else
    let investment_fv :=
      calculate_sip_future_value monthly_investment expected_return_rate
        optimization_period_years
    let remaining_loan :=
      calculate_remaining_loan_balance loan_amount FIXED_LOAN_INTEREST_RATE
        FIXED_LOAN_TENURE_YEARS optimization_period_years
    let net_wealth := investment_fv - remaining_loan
    { status := Status.success
      monthlyEMI := standard_emi
      monthlyInvestment := monthly_investment
      optimizationPeriodYears := optimization_period_years
      estimatedInvestmentFutureValue := investment_fv
      remainingLoanBalance := remaining_loan
      netWealthAtPeriodEnd := net_wealth
      chartInvestmentFV := investment_fv
      chartRemainingLoan := remaining_loan }

/-- Endpoint `/api/calculate-max-growth` (lines 203–250 of `app.py`):
validate the risk appetite; a missing or non-numeric `loan_amount`,
`monthly_budget` or `optimization_period_years` raises `TypeError` at its
first numeric use (both branches use the period in a numeric comparison). -/
def calculate_max_growth (loan_amount monthly_budget risk_appetite : Param)
    (optimization_period_years : PeriodParam) : ApiResult MGResponse :=
  match risk_appetite with
  | Param.num r =>
    if r ≤ 0 then ApiResult.errorResponse Status.error invalidRiskMsg
    else
      match loan_amount, monthly_budget, optimization_period_years with
      | Param.num la, Param.num mb, PeriodParam.val pz =>
        ApiResult.ok (maxGrowthCore la mb r pz)
      | _, _, _ => ApiResult.exn
  | _ => ApiResult.errorResponse Status.error invalidRiskMsg

/-! ## Helper lemmas about the formulas -/

lemma one_lt_zpow_twelve {i : ℚ} (hi : 0 < i) {t : ℤ} (ht : 1 ≤ t) :
    1 < (1 + i) ^ (t * 12) := by
  have hnn : (0:ℤ) ≤ t * 12 := by linarith
  have hk : (t * 12 : ℤ) = ((t * 12).toNat : ℤ) := (Int.toNat_of_nonneg hnn).symm
  rw [hk, zpow_natCast]
  have hkne : (t * 12).toNat ≠ 0 := by
    simp only [ne_eq, Int.toNat_eq_zero, not_le]
    linarith
  exact one_lt_pow₀ (by linarith) hkne

/-- For a positive principal, positive rate and tenure at least one year, the
EMI is strictly positive. -/
lemma calculate_emi_pos {P r : ℚ} {t : ℤ} (hP : 0 < P) (hr : 0 < r)
    (ht : 1 ≤ t) : 0 < calculate_emi P r t := by
  have hguard : ¬ (P ≤ 0 ∨ t ≤ 0) := by push_neg; exact ⟨hP, by linarith⟩
  have hi : 0 < r / 100 / 12 := by positivity
  simp only [calculate_emi]
  rw [if_neg hguard, if_neg (ne_of_gt hi)]
  have hlt : 1 < (1 + r / 100 / 12) ^ (t * 12) := one_lt_zpow_twelve hi ht
  have hinv : (1 + r / 100 / 12) ^ (-(t * 12)) < 1 := by
    rw [zpow_neg, inv_lt_one_iff₀]
    right; exact hlt
  have hden : 0 < 1 - (1 + r / 100 / 12) ^ (-(t * 12)) := by linarith
  exact div_pos (by positivity) hden

/-- A `none` result of the ascending search means no tenure up to `n`
satisfies the condition. -/
lemma minTenureSearch_none_forall {la mb r : ℚ} :
    ∀ {n : ℕ}, minTenureSearch la mb r n = none →
      ∀ t : ℤ, 1 ≤ t → t ≤ (n : ℤ) → ¬ netZeroCond la mb r t := by
  intro n
  induction n with
  | zero => intro _ t ht1 ht0; omega
  | succ n ih =>
    intro h t ht1 htn
    rw [minTenureSearch] at h
    rcases hprev : minTenureSearch la mb r n with _ | u
    · rw [hprev] at h
      by_cases hc : netZeroCond la mb r ((n : ℤ) + 1)
      · rw [if_pos hc] at h; exact absurd h (by simp)
      · rcases lt_or_eq_of_le htn with hlt | heq
        · exact ih hprev t ht1 (by push_cast at hlt ⊢; omega)
        · rw [heq]; push_cast; exact hc
    · rw [hprev] at h; exact absurd h (by simp)

/-- A `some` result of the ascending search is the least tenure in `1..n`
satisfying the condition. -/
lemma minTenureSearch_some_spec {la mb r : ℚ} :
    ∀ {n : ℕ} {t : ℤ}, minTenureSearch la mb r n = some t →
      1 ≤ t ∧ t ≤ (n : ℤ) ∧ netZeroCond la mb r t ∧
        ∀ s : ℤ, 1 ≤ s → s < t → ¬ netZeroCond la mb r s := by
  intro n
  induction n with
  | zero => intro t h; rw [minTenureSearch] at h; exact absurd h (by simp)
  | succ n ih =>
    intro t h
    rw [minTenureSearch] at h
    rcases hprev : minTenureSearch la mb r n with _ | u
    · rw [hprev] at h
      by_cases hc : netZeroCond la mb r ((n : ℤ) + 1)
      · rw [if_pos hc] at h
        have ht : t = (n : ℤ) + 1 := by simpa using h.symm
        subst ht
        refine ⟨by omega, by push_cast; omega, hc, ?_⟩
        intro s hs1 hst
        exact minTenureSearch_none_forall hprev s hs1 (by omega)
      · rw [if_neg hc] at h; exact absurd h (by simp)
    · rw [hprev] at h
      have ht : u = t := by simpa using h
      subst ht
      obtain ⟨h1, h2, h3, h4⟩ := ih hprev
      exact ⟨h1, by push_cast at h2 ⊢; omega, h3, h4⟩

/-- If some tenure in `1..n` satisfies the condition the search succeeds. -/
lemma minTenureSearch_isSome {la mb r : ℚ} {n : ℕ} {t : ℤ}
    (h1 : 1 ≤ t) (h2 : t ≤ (n : ℤ)) (hc : netZeroCond la mb r t) :
    ∃ u, minTenureSearch la mb r n = some u := by
  rcases hs : minTenureSearch la mb r n with _ | u
  · exact absurd hc (minTenureSearch_none_forall hs t h1 h2)
  · exact ⟨u, rfl⟩

/-- If no tenure in `1..30` satisfies the condition the search fails. -/
lemma minTenureSearch_eq_none {la mb r : ℚ}
    (h : ∀ t ∈ Finset.Icc (1:ℤ) 30, ¬ netZeroCond la mb r t) :
    minTenureSearch la mb r 30 = none := by
  rcases hs : minTenureSearch la mb r 30 with _ | u
  · rfl
  · obtain ⟨h1, h2, h3, _⟩ := minTenureSearch_some_spec hs
    exact absurd h3 (h u (Finset.mem_Icc.2 ⟨h1, by exact_mod_cast h2⟩))

/-- The annuity-due factor as a geometric sum: for a nonzero monthly rate `i`,
`((1+i)^n − 1)/i = ∑_{j<n} (1+i)^j`. -/
lemma annuity_factor_eq_geom_sum {i : ℚ} (hi : i ≠ 0) (k : ℕ) :
    ((1 + i) ^ k - 1) / i = ∑ j ∈ Finset.range k, (1 + i) ^ j := by
  have hx : (1 + i) ≠ 1 := by intro h; apply hi; linarith [h]
  rw [geom_sum_eq hx k]
  congr 1
  ring

/-- The SIP future value is monotone nondecreasing in the annual rate, for
positive rates. -/
lemma calculate_sip_future_value_mono_rate (m : ℚ) {r1 r2 : ℚ} (t : ℤ)
    (h1 : 0 < r1) (h12 : r1 ≤ r2) :
    calculate_sip_future_value m r1 t ≤ calculate_sip_future_value m r2 t := by
  by_cases hg : m ≤ 0 ∨ t ≤ 0
  · simp only [calculate_sip_future_value, if_pos hg, le_refl]
  · push_neg at hg
    obtain ⟨hm, ht⟩ := hg
    have hi1 : 0 < r1 / 100 / 12 := by positivity
    have hr2 : 0 < r2 := lt_of_lt_of_le h1 h12
    have hi2 : 0 < r2 / 100 / 12 := by positivity
    have hii : r1 / 100 / 12 ≤ r2 / 100 / 12 := by linarith
    simp only [calculate_sip_future_value,
      if_neg (by push_neg; exact ⟨hm, ht⟩ : ¬ (m ≤ 0 ∨ t ≤ 0)),
      if_neg (ne_of_gt hi1), if_neg (ne_of_gt hi2)]
    have hnn : (0:ℤ) ≤ t * 12 := by linarith
    have hk : (t * 12 : ℤ) = ((t * 12).toNat : ℤ) := (Int.toNat_of_nonneg hnn).symm
    rw [hk, zpow_natCast, zpow_natCast, mul_div_assoc, mul_div_assoc,
      annuity_factor_eq_geom_sum (ne_of_gt hi1),
      annuity_factor_eq_geom_sum (ne_of_gt hi2)]
    have hb1 : (0:ℚ) ≤ 1 + r1 / 100 / 12 := by linarith
    have hsum : ∑ j ∈ Finset.range (t * 12).toNat, (1 + r1 / 100 / 12) ^ j ≤
        ∑ j ∈ Finset.range (t * 12).toNat, (1 + r2 / 100 / 12) ^ j := by
      apply Finset.sum_le_sum
      intro j _
      exact pow_le_pow_left₀ hb1 (by linarith) j
    have hs2 : (0:ℚ) ≤ ∑ j ∈ Finset.range (t * 12).toNat, (1 + r2 / 100 / 12) ^ j :=
      Finset.sum_nonneg fun j _ => pow_nonneg (by linarith) j
    apply mul_le_mul
    · exact mul_le_mul_of_nonneg_left hsum (le_of_lt hm)
    · linarith
    · linarith
    · exact mul_nonneg (le_of_lt hm) hs2

/-- The loop condition is monotone in the rate: a tenure reaching net zero at
rate `r1` also reaches it at any rate `r2 ≥ r1 > 0` (the EMI and total
interest do not depend on the return rate). -/
lemma netZeroCond_mono_rate {la mb r1 r2 : ℚ} {t : ℤ} (h1 : 0 < r1)
    (h12 : r1 ≤ r2) (hc : netZeroCond la mb r1 t) : netZeroCond la mb r2 t := by
  obtain ⟨ha, hb⟩ := hc
  exact ⟨ha, le_trans hb (calculate_sip_future_value_mono_rate _ _ h1 h12)⟩

/-- With a positive loan and at least one year of tenure, a zero budget makes
every tenure infeasible (the EMI alone exceeds the budget). -/
lemma cond_fails_of_zero_budget (la r : ℚ) (hla : 0 < la) :
    ∀ t ∈ Finset.Icc (1:ℤ) 30, ¬ netZeroCond la 0 r t := by
  intro t ht hc
  rw [Finset.mem_Icc] at ht
  have hemi : 0 < calculate_emi la FIXED_LOAN_INTEREST_RATE t :=
    calculate_emi_pos hla (by norm_num [FIXED_LOAN_INTEREST_RATE]) ht.1
  have h0 : (0:ℚ) ≤ 0 - calculate_emi la FIXED_LOAN_INTEREST_RATE t := hc.1
  linarith

/-- C3: `calculate_required_sip` is the exact algebraic inverse of
`calculate_sip_future_value`: for every positive monthly amount `M`, positive
annual rate `r` and integer tenure `0 < t < 50`, feeding the future value of
`M` back through the required-SIP formula returns exactly `M` (exact equality
in the rational model, hence in particular within any relative tolerance). -/
theorem C3_required_sip_roundtrip (M r : ℚ) (t : ℤ) (hM : 0 < M) (hr : 0 < r)
    (ht : 0 < t) (ht50 : t < 50) :
    calculate_required_sip (calculate_sip_future_value M r t) r t = M := by
  have hi : 0 < r / 100 / 12 := by positivity
  have hguard : ¬ (M ≤ 0 ∨ t ≤ 0) := by push_neg; exact ⟨hM, ht⟩
  simp only [calculate_sip_future_value, if_neg hguard, if_neg (ne_of_gt hi)]
  have hlt : 1 < (1 + r / 100 / 12) ^ (t * 12) := one_lt_zpow_twelve hi (by omega)
  have hF : 0 < M * ((1 + r / 100 / 12) ^ (t * 12) - 1) / (r / 100 / 12) *
      (1 + r / 100 / 12) := by
    apply mul_pos
    · exact div_pos (mul_pos hM (by linarith)) hi
    · linarith
  have hguard2 : ¬ (M * ((1 + r / 100 / 12) ^ (t * 12) - 1) / (r / 100 / 12) *
      (1 + r / 100 / 12) ≤ 0 ∨ t ≤ 0) := by push_neg; exact ⟨hF, ht⟩
  simp only [calculate_required_sip, if_neg hguard2, if_neg (ne_of_gt hi)]
  have hx1 : (1 + r / 100 / 12) ^ (t * 12) - 1 ≠ 0 := by linarith
  have hx2 : (1 + r / 100 / 12) ≠ 0 := by linarith
  set i := r / 100 / 12 with hidef
  set x := (1 + i) ^ (t * 12) with hxdef
  have hi3 : i ≠ 0 := ne_of_gt hi
  field_simp
  ring

/-- Witness for C3 at `M = 100`, `r = 12`, `t = 20`. -/
theorem C3_required_sip_roundtrip_witness :
    0 < (100:ℚ) ∧ 0 < (12:ℚ) ∧ 0 < (20:ℤ) ∧ (20:ℤ) < 50 ∧
      calculate_required_sip (calculate_sip_future_value 100 12 20) 12 20 = 100 :=
  ⟨by norm_num, by norm_num, by norm_num, by norm_num,
    C3_required_sip_roundtrip 100 12 20 (by norm_num) (by norm_num)
      (by norm_num) (by norm_num)⟩

/-- C8: the remaining loan balance is never negative, for positive principal,
nonnegative rate, positive original tenure and elapsed years between zero and
the original tenure — in the zero-rate linear branch and in the clamped
amortization branch alike. -/
theorem C8_remaining_balance_nonneg (P r : ℚ) (t0 e : ℤ) (hP : 0 < P)
    (hr : 0 ≤ r) (ht0 : 0 < t0) (he0 : 0 ≤ e) (het : e ≤ t0) :
    0 ≤ calculate_remaining_loan_balance P r t0 e := by
  have hguard : ¬ (P ≤ 0 ∨ t0 ≤ 0 ∨ e < 0 ∨ e > t0) := by
    push_neg; exact ⟨hP, ht0, he0, het⟩
  simp only [calculate_remaining_loan_balance, if_neg hguard]
  by_cases he : e = 0
  · rw [if_pos he]; linarith
  · rw [if_neg he]
    by_cases hi : r / 100 / 12 = 0
    · rw [if_pos hi]
      have hcast : (e:ℚ) ≤ (t0:ℚ) := by exact_mod_cast het
      have ht0q : (0:ℚ) < (t0:ℚ) := by exact_mod_cast ht0
      have : (e:ℚ) / (t0:ℚ) ≤ 1 := (div_le_one ht0q).2 hcast
      have h1 : (0:ℚ) ≤ 1 - (e:ℚ) / (t0:ℚ) := by linarith
      exact mul_nonneg (le_of_lt hP) h1
    · rw [if_neg hi]
      exact le_max_left 0 _

/-- Witness for C8 at `P = 1000000`, `r = 8`, `t0 = 30`, `e = 10`. -/
theorem C8_remaining_balance_nonneg_witness :
    0 < (1000000:ℚ) ∧ (0:ℚ) ≤ 8 ∧ 0 < (30:ℤ) ∧ (0:ℤ) ≤ 10 ∧ (10:ℤ) ≤ 30 ∧
      0 ≤ calculate_remaining_loan_balance 1000000 8 30 10 :=
  ⟨by norm_num, by norm_num, by norm_num, by norm_num, by norm_num,
    C8_remaining_balance_nonneg 1000000 8 30 10 (by norm_num) (by norm_num)
      (by norm_num) (by norm_num) (by norm_num)⟩

/-- C6: whenever the risk-appetite parameter is missing, non-numeric or a
number `≤ 0`, each of the three endpoints returns the `status: error` JSON
dict that carries only the fixed message — no financial computation happens
and no numeric field appears in the response (the error dict has no numeric
fields at all), for arbitrary values of the other parameters. -/
theorem C6_invalid_risk_rejected (loan_amount monthly_budget : Param)
    (optimization_period_years : PeriodParam) (risk_appetite : Param)
    (h : riskInvalid risk_appetite) :
    calculate_net_zero_interest loan_amount monthly_budget risk_appetite =
      ApiResult.errorResponse Status.error invalidRiskMsg ∧
    calculate_min_time_net_zero loan_amount monthly_budget risk_appetite =
      ApiResult.errorResponse Status.error invalidRiskMsg ∧
    calculate_max_growth loan_amount monthly_budget risk_appetite
      optimization_period_years =
      ApiResult.errorResponse Status.error invalidRiskMsg := by
  cases risk_appetite with
  | num x =>
    have hx : x ≤ 0 := h
    exact ⟨by simp [calculate_net_zero_interest, if_pos hx],
      by simp [calculate_min_time_net_zero, if_pos hx],
      by simp [calculate_max_growth, if_pos hx]⟩
  | missing => exact ⟨rfl, rfl, rfl⟩
  | nonNumeric => exact ⟨rfl, rfl, rfl⟩

/-- Witness for C6 at `risk_appetite = -5` with arbitrary other fields. -/
theorem C6_invalid_risk_rejected_witness :
    riskInvalid (Param.num (-5)) ∧
    calculate_net_zero_interest (Param.num 5000000) (Param.num 60000)
        (Param.num (-5)) = ApiResult.errorResponse Status.error invalidRiskMsg ∧
    calculate_min_time_net_zero (Param.num 5000000) (Param.num 60000)
        (Param.num (-5)) = ApiResult.errorResponse Status.error invalidRiskMsg ∧
    calculate_max_growth (Param.num 5000000) (Param.num 60000) (Param.num (-5))
        (PeriodParam.val 10) = ApiResult.errorResponse Status.error invalidRiskMsg :=
  ⟨by norm_num [riskInvalid],
    C6_invalid_risk_rejected (Param.num 5000000) (Param.num 60000)
      (PeriodParam.val 10) (Param.num (-5)) (by norm_num [riskInvalid])⟩

/-- Unfolding equation for the failed-search branch of `minTimeNetZeroCore`. -/
lemma minTimeNetZeroCore_of_none {la mb r : ℚ}
    (hs : minTenureSearch la mb r 30 = none) :
    minTimeNetZeroCore la mb r =
      { status := Status.not_achievable
        minTimeYears := FIXED_LOAN_TENURE_YEARS
        monthlyEMI :=
          calculate_emi la FIXED_LOAN_INTEREST_RATE FIXED_LOAN_TENURE_YEARS
        monthlyInvestment :=
          if 0 < mb -
              calculate_emi la FIXED_LOAN_INTEREST_RATE FIXED_LOAN_TENURE_YEARS
          then mb -
            calculate_emi la FIXED_LOAN_INTEREST_RATE FIXED_LOAN_TENURE_YEARS
          else 0
        totalLoanInterestPayable :=
          calculate_total_interest la
            (calculate_emi la FIXED_LOAN_INTEREST_RATE FIXED_LOAN_TENURE_YEARS)
            FIXED_LOAN_TENURE_YEARS
        estimatedInvestmentFutureValue :=
          if 0 < mb -
              calculate_emi la FIXED_LOAN_INTEREST_RATE FIXED_LOAN_TENURE_YEARS
          then calculate_sip_future_value
            (mb - calculate_emi la FIXED_LOAN_INTEREST_RATE FIXED_LOAN_TENURE_YEARS)
            r FIXED_LOAN_TENURE_YEARS
          else 0
        chartLoanInterest :=
          calculate_total_interest la
            (calculate_emi la FIXED_LOAN_INTEREST_RATE FIXED_LOAN_TENURE_YEARS)
            FIXED_LOAN_TENURE_YEARS
        chartInvestmentGain :=
          if 0 < mb -
              calculate_emi la FIXED_LOAN_INTEREST_RATE FIXED_LOAN_TENURE_YEARS
          then calculate_sip_future_value
            (mb - calculate_emi la FIXED_LOAN_INTEREST_RATE FIXED_LOAN_TENURE_YEARS)
            r FIXED_LOAN_TENURE_YEARS
          else 0 } := by
  unfold minTimeNetZeroCore
  rw [hs]

/-- Unfolding equation for the successful-search branch of
`minTimeNetZeroCore`. -/
lemma minTimeNetZeroCore_of_some {la mb r : ℚ} {t : ℤ}
    (hs : minTenureSearch la mb r 30 = some t) :
    minTimeNetZeroCore la mb r =
      { status := Status.success
        minTimeYears := t
        monthlyEMI := calculate_emi la FIXED_LOAN_INTEREST_RATE t
        monthlyInvestment := mb - calculate_emi la FIXED_LOAN_INTEREST_RATE t
        totalLoanInterestPayable :=
          calculate_total_interest la
            (calculate_emi la FIXED_LOAN_INTEREST_RATE t) t
        estimatedInvestmentFutureValue :=
          calculate_sip_future_value
            (mb - calculate_emi la FIXED_LOAN_INTEREST_RATE t) r t
        chartLoanInterest :=
          calculate_total_interest la
            (calculate_emi la FIXED_LOAN_INTEREST_RATE t) t
        chartInvestmentGain :=
          calculate_sip_future_value
            (mb - calculate_emi la FIXED_LOAN_INTEREST_RATE t) r t } := by
  unfold minTimeNetZeroCore
  rw [hs]

/-- C10: whenever the minimum-time search reports `not_achievable`, the
`minTimeYears` field equals the fixed maximum tenure 30 — the same value a
genuine 30-year success would carry; no sentinel such as `-1` and no absent
field is ever returned. -/
theorem C10_notachievable_minTime_is_30 (la mb r : ℚ)
    (h : (minTimeNetZeroCore la mb r).status = Status.not_achievable) :
    (minTimeNetZeroCore la mb r).minTimeYears = 30 := by
  rcases hs : minTenureSearch la mb r 30 with _ | u
  · rw [minTimeNetZeroCore_of_none hs]; rfl
  · rw [minTimeNetZeroCore_of_some hs] at h
    exact absurd h (by simp)

/-- Witness for C10 at loan `2`, budget `0`, rate `10` (not achievable). -/
theorem C10_notachievable_minTime_is_30_witness :
    (minTimeNetZeroCore 2 0 10).status = Status.not_achievable ∧
    (minTimeNetZeroCore 2 0 10).minTimeYears = 30 :=
  have hs : minTenureSearch 2 0 10 30 = none :=
    minTenureSearch_eq_none (cond_fails_of_zero_budget 2 10 (by norm_num))
  have hstat : (minTimeNetZeroCore 2 0 10).status = Status.not_achievable := by
    rw [minTimeNetZeroCore_of_none hs]
  ⟨hstat, C10_notachievable_minTime_is_30 2 0 10 hstat⟩

/-- C7: when no tenure in `1..30` satisfies the net-zero condition, the
minimum-time endpoint reports `not_achievable` with figures recomputed at the
fixed 30-year tenure: the 30-year EMI and total interest,
`monthlyInvestment = monthlyBudget − EMI` when positive and `0` otherwise, and
the investment future value of the available amount over 30 years, floored to
`0` when the budget does not exceed the 30-year EMI. -/
theorem C7_notachievable_recomputed_at_max (la mb r : ℚ)
    (h : ∀ t ∈ Finset.Icc (1:ℤ) 30, ¬ netZeroCond la mb r t) :
    (minTimeNetZeroCore la mb r).status = Status.not_achievable ∧
    (minTimeNetZeroCore la mb r).monthlyEMI =
      calculate_emi la FIXED_LOAN_INTEREST_RATE 30 ∧
    (minTimeNetZeroCore la mb r).totalLoanInterestPayable =
      calculate_total_interest la (calculate_emi la FIXED_LOAN_INTEREST_RATE 30)
        30 ∧
    (minTimeNetZeroCore la mb r).monthlyInvestment =
      (if 0 < mb - calculate_emi la FIXED_LOAN_INTEREST_RATE 30 then
        mb - calculate_emi la FIXED_LOAN_INTEREST_RATE 30 else 0) ∧
    (minTimeNetZeroCore la mb r).estimatedInvestmentFutureValue =
      (if 0 < mb - calculate_emi la FIXED_LOAN_INTEREST_RATE 30 then
        calculate_sip_future_value
          (mb - calculate_emi la FIXED_LOAN_INTEREST_RATE 30) r 30 else 0) := by
  rw [minTimeNetZeroCore_of_none (minTenureSearch_eq_none h)]
  exact ⟨rfl, rfl, rfl, rfl, rfl⟩

/-- Witness for C7 at loan `1`, budget `0`, rate `10`. -/
theorem C7_notachievable_recomputed_at_max_witness :
    (∀ t ∈ Finset.Icc (1:ℤ) 30, ¬ netZeroCond 1 0 10 t) ∧
    ((minTimeNetZeroCore 1 0 10).status = Status.not_achievable ∧
    (minTimeNetZeroCore 1 0 10).monthlyEMI =
      calculate_emi 1 FIXED_LOAN_INTEREST_RATE 30 ∧
    (minTimeNetZeroCore 1 0 10).totalLoanInterestPayable =
      calculate_total_interest 1 (calculate_emi 1 FIXED_LOAN_INTEREST_RATE 30)
        30 ∧
    (minTimeNetZeroCore 1 0 10).monthlyInvestment =
      (if 0 < 0 - calculate_emi 1 FIXED_LOAN_INTEREST_RATE 30 then
        0 - calculate_emi 1 FIXED_LOAN_INTEREST_RATE 30 else 0) ∧
    (minTimeNetZeroCore 1 0 10).estimatedInvestmentFutureValue =
      (if 0 < 0 - calculate_emi 1 FIXED_LOAN_INTEREST_RATE 30 then
        calculate_sip_future_value
          (0 - calculate_emi 1 FIXED_LOAN_INTEREST_RATE 30) 10 30 else 0)) :=
  ⟨cond_fails_of_zero_budget 1 10 (by norm_num),
    C7_notachievable_recomputed_at_max 1 0 10
      (cond_fails_of_zero_budget 1 10 (by norm_num))⟩

/-- C1: with a positive numeric return rate, the minimum-time endpoint accepts
the request, and: it reports `success` exactly when some tenure `t ∈ 1..30`
satisfies the net-zero condition (budget covers the EMI at `t` and the future
value of investing the surplus for `t` years reaches the total interest at
`t`); and when it reports `success` with `minTimeYears = t`, that `t` is the
least such tenure and the reported EMI, investment, total interest and future
value are exactly the ones computed at tenure `t`. -/
theorem C1_min_time_least_tenure (la mb r : ℚ) (hr : 0 < r) :
    calculate_min_time_net_zero (Param.num la) (Param.num mb) (Param.num r) =
      ApiResult.ok (minTimeNetZeroCore la mb r) ∧
    ((minTimeNetZeroCore la mb r).status = Status.success ↔
      ∃ t ∈ Finset.Icc (1:ℤ) 30, netZeroCond la mb r t) ∧
    (∀ t : ℤ, (minTimeNetZeroCore la mb r).status = Status.success →
      (minTimeNetZeroCore la mb r).minTimeYears = t →
      1 ≤ t ∧ t ≤ 30 ∧ netZeroCond la mb r t ∧
      (∀ s : ℤ, 1 ≤ s → s < t → ¬ netZeroCond la mb r s) ∧
      (minTimeNetZeroCore la mb r).monthlyEMI =
        calculate_emi la FIXED_LOAN_INTEREST_RATE t ∧
      (minTimeNetZeroCore la mb r).monthlyInvestment =
        mb - calculate_emi la FIXED_LOAN_INTEREST_RATE t ∧
      (minTimeNetZeroCore la mb r).totalLoanInterestPayable =
        calculate_total_interest la
          (calculate_emi la FIXED_LOAN_INTEREST_RATE t) t ∧
      (minTimeNetZeroCore la mb r).estimatedInvestmentFutureValue =
        calculate_sip_future_value
          (mb - calculate_emi la FIXED_LOAN_INTEREST_RATE t) r t) := by
  refine ⟨?_, ⟨?_, ?_⟩, ?_⟩
  · simp only [calculate_min_time_net_zero]
    rw [if_neg (not_le.2 hr)]
  · intro hstat
    rcases hs : minTenureSearch la mb r 30 with _ | u
    · rw [minTimeNetZeroCore_of_none hs] at hstat
      exact absurd hstat (by simp)
    · obtain ⟨h1, h2, h3, _⟩ := minTenureSearch_some_spec hs
      exact ⟨u, Finset.mem_Icc.2 ⟨h1, by exact_mod_cast h2⟩, h3⟩
  · rintro ⟨t, htmem, htc⟩
    rw [Finset.mem_Icc] at htmem
    obtain ⟨u, hu⟩ := minTenureSearch_isSome (n := 30) htmem.1
      (by exact_mod_cast htmem.2) htc
    rw [minTimeNetZeroCore_of_some hu]
  · intro t hstat hmin
    rcases hs : minTenureSearch la mb r 30 with _ | u
    · rw [minTimeNetZeroCore_of_none hs] at hstat
      exact absurd hstat (by simp)
    · obtain ⟨h1, h2, h3, h4⟩ := minTenureSearch_some_spec hs
      rw [minTimeNetZeroCore_of_some hs] at hmin
      have ht : u = t := hmin
      subst ht
      rw [minTimeNetZeroCore_of_some hs]
      exact ⟨h1, by exact_mod_cast h2, h3, h4, rfl, rfl, rfl, rfl⟩

/-- Witness for C1 at loan `1000000`, budget `10000`, rate `12`. -/
theorem C1_min_time_least_tenure_witness :
    0 < (12:ℚ) ∧
    (calculate_min_time_net_zero (Param.num 1000000) (Param.num 10000)
        (Param.num 12) = ApiResult.ok (minTimeNetZeroCore 1000000 10000 12) ∧
    ((minTimeNetZeroCore 1000000 10000 12).status = Status.success ↔
      ∃ t ∈ Finset.Icc (1:ℤ) 30, netZeroCond 1000000 10000 12 t) ∧
    (∀ t : ℤ, (minTimeNetZeroCore 1000000 10000 12).status = Status.success →
      (minTimeNetZeroCore 1000000 10000 12).minTimeYears = t →
      1 ≤ t ∧ t ≤ 30 ∧ netZeroCond 1000000 10000 12 t ∧
      (∀ s : ℤ, 1 ≤ s → s < t → ¬ netZeroCond 1000000 10000 12 s) ∧
      (minTimeNetZeroCore 1000000 10000 12).monthlyEMI =
        calculate_emi 1000000 FIXED_LOAN_INTEREST_RATE t ∧
      (minTimeNetZeroCore 1000000 10000 12).monthlyInvestment =
        10000 - calculate_emi 1000000 FIXED_LOAN_INTEREST_RATE t ∧
      (minTimeNetZeroCore 1000000 10000 12).totalLoanInterestPayable =
        calculate_total_interest 1000000
          (calculate_emi 1000000 FIXED_LOAN_INTEREST_RATE t) t ∧
      (minTimeNetZeroCore 1000000 10000 12).estimatedInvestmentFutureValue =
        calculate_sip_future_value
          (10000 - calculate_emi 1000000 FIXED_LOAN_INTEREST_RATE t) 12 t)) :=
  ⟨by norm_num, C1_min_time_least_tenure 1000000 10000 12 (by norm_num)⟩

/-- C9: raising the expected return rate, with the loan and budget fixed,
never increases the reported `minTimeYears` (for achievable and unachievable
inputs alike — the unachievable report carries the maximum tenure 30). -/
theorem C9_min_time_monotone_in_rate (la mb r1 r2 : ℚ) (h1 : 0 < r1)
    (h12 : r1 ≤ r2) :
    (minTimeNetZeroCore la mb r2).minTimeYears ≤
      (minTimeNetZeroCore la mb r1).minTimeYears := by
  rcases hs1 : minTenureSearch la mb r1 30 with _ | t1
  · rw [minTimeNetZeroCore_of_none hs1]
    rcases hs2 : minTenureSearch la mb r2 30 with _ | t2
    · rw [minTimeNetZeroCore_of_none hs2]
    · obtain ⟨_, h2, _, _⟩ := minTenureSearch_some_spec hs2
      rw [minTimeNetZeroCore_of_some hs2]
      show t2 ≤ (30:ℤ)
      exact_mod_cast h2
  · obtain ⟨ha1, ha2, hc1, _⟩ := minTenureSearch_some_spec hs1
    have hc2 : netZeroCond la mb r2 t1 := netZeroCond_mono_rate h1 h12 hc1
    obtain ⟨t2, hs2⟩ := minTenureSearch_isSome (n := 30) ha1 ha2 hc2
    obtain ⟨hb1, hb2, hc2', hmin⟩ := minTenureSearch_some_spec hs2
    rw [minTimeNetZeroCore_of_some hs1, minTimeNetZeroCore_of_some hs2]
    show t2 ≤ t1
    by_contra hlt
    push_neg at hlt
    exact hmin t1 ha1 hlt hc2

/-- Witness for C9 at loan `1000000`, budget `10000`, rates `10 ≤ 12`. -/
theorem C9_min_time_monotone_in_rate_witness :
    0 < (10:ℚ) ∧ (10:ℚ) ≤ 12 ∧
    (minTimeNetZeroCore 1000000 10000 12).minTimeYears ≤
      (minTimeNetZeroCore 1000000 10000 10).minTimeYears :=
  ⟨by norm_num, by norm_num,
    C9_min_time_monotone_in_rate 1000000 10000 10 12 (by norm_num) (by norm_num)⟩

/-- C2: with a positive numeric return rate, the net-zero endpoint accepts the
request and branches three ways on `available = monthlyBudget − EMI(loan, 8%, 30)`:
`available < 0` reports `not_achievable` with zero investment and zero
projected future value; else if the required monthly SIP (for the 30-year
total interest) exceeds `available` it reports `warning` investing exactly
`available`, with the 30-year future value of `available`; else it reports
`success` investing exactly the required amount, with the future value field
set to the total interest itself. -/
theorem C2_netzero_three_way (la mb r : ℚ) (hr : 0 < r) :
    calculate_net_zero_interest (Param.num la) (Param.num mb) (Param.num r) =
      ApiResult.ok (netZeroInterestCore la mb r) ∧
    (mb - calculate_emi la FIXED_LOAN_INTEREST_RATE FIXED_LOAN_TENURE_YEARS < 0 →
      netZeroInterestCore la mb r =
        { status := Status.not_achievable
          monthlyEMI :=
            calculate_emi la FIXED_LOAN_INTEREST_RATE FIXED_LOAN_TENURE_YEARS
          monthlyInvestment := 0
          totalLoanInterestPayable :=
            calculate_total_interest la
              (calculate_emi la FIXED_LOAN_INTEREST_RATE FIXED_LOAN_TENURE_YEARS)
              FIXED_LOAN_TENURE_YEARS
          estimatedInvestmentFutureValue := 0
          chartLoanInterest :=
            calculate_total_interest la
              (calculate_emi la FIXED_LOAN_INTEREST_RATE FIXED_LOAN_TENURE_YEARS)
              FIXED_LOAN_TENURE_YEARS
          chartInvestmentGain := 0 }) ∧
    (0 ≤ mb - calculate_emi la FIXED_LOAN_INTEREST_RATE FIXED_LOAN_TENURE_YEARS →
      calculate_required_sip
          (calculate_total_interest la
            (calculate_emi la FIXED_LOAN_INTEREST_RATE FIXED_LOAN_TENURE_YEARS)
            FIXED_LOAN_TENURE_YEARS) r FIXED_LOAN_TENURE_YEARS >
        mb - calculate_emi la FIXED_LOAN_INTEREST_RATE FIXED_LOAN_TENURE_YEARS →
      netZeroInterestCore la mb r =
        { status := Status.warning
          monthlyEMI :=
            calculate_emi la FIXED_LOAN_INTEREST_RATE FIXED_LOAN_TENURE_YEARS
          monthlyInvestment :=
            mb - calculate_emi la FIXED_LOAN_INTEREST_RATE FIXED_LOAN_TENURE_YEARS
          totalLoanInterestPayable :=
            calculate_total_interest la
              (calculate_emi la FIXED_LOAN_INTEREST_RATE FIXED_LOAN_TENURE_YEARS)
              FIXED_LOAN_TENURE_YEARS
          estimatedInvestmentFutureValue :=
            calculate_sip_future_value
              (mb - calculate_emi la FIXED_LOAN_INTEREST_RATE FIXED_LOAN_TENURE_YEARS)
              r FIXED_LOAN_TENURE_YEARS
          chartLoanInterest :=
            calculate_total_interest la
              (calculate_emi la FIXED_LOAN_INTEREST_RATE FIXED_LOAN_TENURE_YEARS)
              FIXED_LOAN_TENURE_YEARS
          chartInvestmentGain :=
            calculate_sip_future_value
              (mb - calculate_emi la FIXED_LOAN_INTEREST_RATE FIXED_LOAN_TENURE_YEARS)
              r FIXED_LOAN_TENURE_YEARS }) ∧
    (0 ≤ mb - calculate_emi la FIXED_LOAN_INTEREST_RATE FIXED_LOAN_TENURE_YEARS →
      calculate_required_sip
          (calculate_total_interest la
            (calculate_emi la FIXED_LOAN_INTEREST_RATE FIXED_LOAN_TENURE_YEARS)
            FIXED_LOAN_TENURE_YEARS) r FIXED_LOAN_TENURE_YEARS ≤
        mb - calculate_emi la FIXED_LOAN_INTEREST_RATE FIXED_LOAN_TENURE_YEARS →
      netZeroInterestCore la mb r =
        { status := Status.success
          monthlyEMI :=
            calculate_emi la FIXED_LOAN_INTEREST_RATE FIXED_LOAN_TENURE_YEARS
          monthlyInvestment :=
            calculate_required_sip
              (calculate_total_interest la
                (calculate_emi la FIXED_LOAN_INTEREST_RATE FIXED_LOAN_TENURE_YEARS)
                FIXED_LOAN_TENURE_YEARS) r FIXED_LOAN_TENURE_YEARS
          totalLoanInterestPayable :=
            calculate_total_interest la
              (calculate_emi la FIXED_LOAN_INTEREST_RATE FIXED_LOAN_TENURE_YEARS)
              FIXED_LOAN_TENURE_YEARS
          estimatedInvestmentFutureValue :=
            calculate_total_interest la
              (calculate_emi la FIXED_LOAN_INTEREST_RATE FIXED_LOAN_TENURE_YEARS)
              FIXED_LOAN_TENURE_YEARS
          chartLoanInterest :=
            calculate_total_interest la
              (calculate_emi la FIXED_LOAN_INTEREST_RATE FIXED_LOAN_TENURE_YEARS)
              FIXED_LOAN_TENURE_YEARS
          chartInvestmentGain :=
            calculate_total_interest la
              (calculate_emi la FIXED_LOAN_INTEREST_RATE FIXED_LOAN_TENURE_YEARS)
              FIXED_LOAN_TENURE_YEARS }) := by
  refine ⟨?_, ?_, ?_, ?_⟩
  · simp only [calculate_net_zero_interest]
    rw [if_neg (not_le.2 hr)]
  · intro h
    simp only [netZeroInterestCore]
    rw [if_pos h]
  · intro h0 hgt
    simp only [netZeroInterestCore]
    rw [if_neg (not_lt.2 h0), if_pos hgt]
  · intro h0 hle
    simp only [netZeroInterestCore]
    rw [if_neg (not_lt.2 h0), if_neg (not_lt.2 hle)]

/-- Witness for C2 at loan `5000000`, budget `60000`, rate `12`. -/
theorem C2_netzero_three_way_witness :
    0 < (12:ℚ) ∧
    (calculate_net_zero_interest (Param.num 5000000) (Param.num 60000)
        (Param.num 12) = ApiResult.ok (netZeroInterestCore 5000000 60000 12) ∧
    (60000 - calculate_emi 5000000 FIXED_LOAN_INTEREST_RATE
        FIXED_LOAN_TENURE_YEARS < 0 →
      netZeroInterestCore 5000000 60000 12 =
        { status := Status.not_achievable
          monthlyEMI :=
            calculate_emi 5000000 FIXED_LOAN_INTEREST_RATE FIXED_LOAN_TENURE_YEARS
          monthlyInvestment := 0
          totalLoanInterestPayable :=
            calculate_total_interest 5000000
              (calculate_emi 5000000 FIXED_LOAN_INTEREST_RATE FIXED_LOAN_TENURE_YEARS)
              FIXED_LOAN_TENURE_YEARS
          estimatedInvestmentFutureValue := 0
          chartLoanInterest :=
            calculate_total_interest 5000000
              (calculate_emi 5000000 FIXED_LOAN_INTEREST_RATE FIXED_LOAN_TENURE_YEARS)
              FIXED_LOAN_TENURE_YEARS
          chartInvestmentGain := 0 }) ∧
    (0 ≤ 60000 - calculate_emi 5000000 FIXED_LOAN_INTEREST_RATE
        FIXED_LOAN_TENURE_YEARS →
      calculate_required_sip
          (calculate_total_interest 5000000
            (calculate_emi 5000000 FIXED_LOAN_INTEREST_RATE FIXED_LOAN_TENURE_YEARS)
            FIXED_LOAN_TENURE_YEARS) 12 FIXED_LOAN_TENURE_YEARS >
        60000 - calculate_emi 5000000 FIXED_LOAN_INTEREST_RATE
          FIXED_LOAN_TENURE_YEARS →
      netZeroInterestCore 5000000 60000 12 =
        { status := Status.warning
          monthlyEMI :=
            calculate_emi 5000000 FIXED_LOAN_INTEREST_RATE FIXED_LOAN_TENURE_YEARS
          monthlyInvestment :=
            60000 - calculate_emi 5000000 FIXED_LOAN_INTEREST_RATE
              FIXED_LOAN_TENURE_YEARS
          totalLoanInterestPayable :=
            calculate_total_interest 5000000
              (calculate_emi 5000000 FIXED_LOAN_INTEREST_RATE FIXED_LOAN_TENURE_YEARS)
              FIXED_LOAN_TENURE_YEARS
          estimatedInvestmentFutureValue :=
            calculate_sip_future_value
              (60000 - calculate_emi 5000000 FIXED_LOAN_INTEREST_RATE
                FIXED_LOAN_TENURE_YEARS) 12 FIXED_LOAN_TENURE_YEARS
          chartLoanInterest :=
            calculate_total_interest 5000000
              (calculate_emi 5000000 FIXED_LOAN_INTEREST_RATE FIXED_LOAN_TENURE_YEARS)
              FIXED_LOAN_TENURE_YEARS
          chartInvestmentGain :=
            calculate_sip_future_value
              (60000 - calculate_emi 5000000 FIXED_LOAN_INTEREST_RATE
                FIXED_LOAN_TENURE_YEARS) 12 FIXED_LOAN_TENURE_YEARS }) ∧
    (0 ≤ 60000 - calculate_emi 5000000 FIXED_LOAN_INTEREST_RATE
        FIXED_LOAN_TENURE_YEARS →
      calculate_required_sip
          (calculate_total_interest 5000000
            (calculate_emi 5000000 FIXED_LOAN_INTEREST_RATE FIXED_LOAN_TENURE_YEARS)
            FIXED_LOAN_TENURE_YEARS) 12 FIXED_LOAN_TENURE_YEARS ≤
        60000 - calculate_emi 5000000 FIXED_LOAN_INTEREST_RATE
          FIXED_LOAN_TENURE_YEARS →
      netZeroInterestCore 5000000 60000 12 =
        { status := Status.success
          monthlyEMI :=
            calculate_emi 5000000 FIXED_LOAN_INTEREST_RATE FIXED_LOAN_TENURE_YEARS
          monthlyInvestment :=
            calculate_required_sip
              (calculate_total_interest 5000000
                (calculate_emi 5000000 FIXED_LOAN_INTEREST_RATE FIXED_LOAN_TENURE_YEARS)
                FIXED_LOAN_TENURE_YEARS) 12 FIXED_LOAN_TENURE_YEARS
          totalLoanInterestPayable :=
            calculate_total_interest 5000000
              (calculate_emi 5000000 FIXED_LOAN_INTEREST_RATE FIXED_LOAN_TENURE_YEARS)
              FIXED_LOAN_TENURE_YEARS
          estimatedInvestmentFutureValue :=
            calculate_total_interest 5000000
              (calculate_emi 5000000 FIXED_LOAN_INTEREST_RATE FIXED_LOAN_TENURE_YEARS)
              FIXED_LOAN_TENURE_YEARS
          chartLoanInterest :=
            calculate_total_interest 5000000
              (calculate_emi 5000000 FIXED_LOAN_INTEREST_RATE FIXED_LOAN_TENURE_YEARS)
              FIXED_LOAN_TENURE_YEARS
          chartInvestmentGain :=
            calculate_total_interest 5000000
              (calculate_emi 5000000 FIXED_LOAN_INTEREST_RATE FIXED_LOAN_TENURE_YEARS)
              FIXED_LOAN_TENURE_YEARS })) :=
  ⟨by norm_num, C2_netzero_three_way 5000000 60000 12 (by norm_num)⟩

/-- Unfolding equation for the no-surplus branch of `maxGrowthCore`. -/
lemma maxGrowthCore_of_nonpos {la mb r : ℚ} {pz : ℤ}
    (h : mb - calculate_emi la FIXED_LOAN_INTEREST_RATE FIXED_LOAN_TENURE_YEARS
      ≤ 0) :
    maxGrowthCore la mb r pz =
      { status := Status.not_achievable
        monthlyEMI :=
          calculate_emi la FIXED_LOAN_INTEREST_RATE FIXED_LOAN_TENURE_YEARS
        monthlyInvestment := 0
        optimizationPeriodYears := pz
        estimatedInvestmentFutureValue := 0
        remainingLoanBalance :=
          calculate_remaining_loan_balance la FIXED_LOAN_INTEREST_RATE
            FIXED_LOAN_TENURE_YEARS pz
        netWealthAtPeriodEnd := 0
        chartInvestmentFV := 0
        chartRemainingLoan :=
          calculate_remaining_loan_balance la FIXED_LOAN_INTEREST_RATE
            FIXED_LOAN_TENURE_YEARS pz } := by
  unfold maxGrowthCore
  rw [if_pos h]

/-- Unfolding equation for the investing branch of `maxGrowthCore`. -/
lemma maxGrowthCore_of_pos {la mb r : ℚ} {pz : ℤ}
    (h : ¬ (mb - calculate_emi la FIXED_LOAN_INTEREST_RATE
      FIXED_LOAN_TENURE_YEARS ≤ 0)) :
    maxGrowthCore la mb r pz =
      { status := Status.success
        monthlyEMI :=
          calculate_emi la FIXED_LOAN_INTEREST_RATE FIXED_LOAN_TENURE_YEARS
        monthlyInvestment :=
          mb - calculate_emi la FIXED_LOAN_INTEREST_RATE FIXED_LOAN_TENURE_YEARS
        optimizationPeriodYears := pz
        estimatedInvestmentFutureValue :=
          calculate_sip_future_value
            (mb - calculate_emi la FIXED_LOAN_INTEREST_RATE FIXED_LOAN_TENURE_YEARS)
            r pz
        remainingLoanBalance :=
          calculate_remaining_loan_balance la FIXED_LOAN_INTEREST_RATE
            FIXED_LOAN_TENURE_YEARS pz
        netWealthAtPeriodEnd :=
          calculate_sip_future_value
            (mb - calculate_emi la FIXED_LOAN_INTEREST_RATE FIXED_LOAN_TENURE_YEARS)
            r pz -
          calculate_remaining_loan_balance la FIXED_LOAN_INTEREST_RATE
            FIXED_LOAN_TENURE_YEARS pz
        chartInvestmentFV :=
          calculate_sip_future_value
            (mb - calculate_emi la FIXED_LOAN_INTEREST_RATE FIXED_LOAN_TENURE_YEARS)
            r pz
        chartRemainingLoan :=
          calculate_remaining_loan_balance la FIXED_LOAN_INTEREST_RATE
            FIXED_LOAN_TENURE_YEARS pz } := by
  unfold maxGrowthCore
  rw [if_neg h]

/-- C4 counterexample: at loan `1000000`, budget `1000`, rate `10`, horizon
`10` years, MaxGrowth reports `not_achievable` with `netWealthAtPeriodEnd = 0`
while the remaining loan balance is positive, so the claimed identity
`netWealth = futureValue − remainingBalance` fails on that record. -/
theorem C4_net_wealth_additivity_cex :
    (maxGrowthCore 1000000 1000 10 10).status = Status.not_achievable ∧
    (maxGrowthCore 1000000 1000 10 10).netWealthAtPeriodEnd ≠
      (maxGrowthCore 1000000 1000 10 10).estimatedInvestmentFutureValue -
        (maxGrowthCore 1000000 1000 10 10).remainingLoanBalance := by
  norm_num [maxGrowthCore, calculate_emi, calculate_remaining_loan_balance,
    FIXED_LOAN_INTEREST_RATE, FIXED_LOAN_TENURE_YEARS]

/-- C4 amended: the identity `netWealthAtPeriodEnd =
estimatedInvestmentFutureValue − remainingLoanBalance` holds exactly in every
`success` MaxGrowth record (by construction); in a `not_achievable` record the
net wealth and future value are both `0` while the remaining balance is still
reported, so there the identity holds only when that balance is zero. -/
theorem C4_net_wealth_additivity (la mb r : ℚ) (pz : ℤ) :
    ((maxGrowthCore la mb r pz).status = Status.success →
      (maxGrowthCore la mb r pz).netWealthAtPeriodEnd =
        (maxGrowthCore la mb r pz).estimatedInvestmentFutureValue -
          (maxGrowthCore la mb r pz).remainingLoanBalance) ∧
    ((maxGrowthCore la mb r pz).status = Status.not_achievable →
      (maxGrowthCore la mb r pz).netWealthAtPeriodEnd = 0 ∧
      (maxGrowthCore la mb r pz).estimatedInvestmentFutureValue = 0) := by
  by_cases h : mb - calculate_emi la FIXED_LOAN_INTEREST_RATE
      FIXED_LOAN_TENURE_YEARS ≤ 0
  · rw [maxGrowthCore_of_nonpos h]
    constructor
    · intro hstat
      exact absurd hstat (by simp)
    · intro _
      exact ⟨rfl, rfl⟩
  · rw [maxGrowthCore_of_pos h]
    constructor
    · intro _
      rfl
    · intro hstat
      exact absurd hstat (by simp)

/-- Witness for C4 (amended) at loan `1000`, budget `60000`, rate `12`,
horizon `10` years — a `success` record. -/
theorem C4_net_wealth_additivity_witness :
    (maxGrowthCore 1000 60000 12 10).status = Status.success ∧
    (maxGrowthCore 1000 60000 12 10).netWealthAtPeriodEnd =
      (maxGrowthCore 1000 60000 12 10).estimatedInvestmentFutureValue -
        (maxGrowthCore 1000 60000 12 10).remainingLoanBalance :=
  have h : ¬ ((60000:ℚ) - calculate_emi 1000 FIXED_LOAN_INTEREST_RATE
      FIXED_LOAN_TENURE_YEARS ≤ 0) := by
    norm_num [calculate_emi, FIXED_LOAN_INTEREST_RATE, FIXED_LOAN_TENURE_YEARS]
  have hstat : (maxGrowthCore 1000 60000 12 10).status = Status.success := by
    rw [maxGrowthCore_of_pos h]
  ⟨hstat, (C4_net_wealth_additivity 1000 60000 12 10).1 hstat⟩

/-- C5 counterexample: with a valid positive return rate, a missing or
non-numeric `loan_amount`, `monthly_budget` or `optimization_period_years`
makes the corresponding endpoint raise an uncaught `TypeError` at the first
numeric use of the value, instead of yielding a result record. -/
theorem C5_exception_on_missing_params_cex :
    calculate_net_zero_interest Param.missing (Param.num 60000) (Param.num 10) =
      ApiResult.exn ∧
    calculate_min_time_net_zero (Param.num 5000000) Param.nonNumeric
      (Param.num 10) = ApiResult.exn ∧
    calculate_max_growth (Param.num 5000000) (Param.num 60000) (Param.num 10)
      PeriodParam.missing = ApiResult.exn := by
  refine ⟨?_, ?_, ?_⟩ <;>
    norm_num [calculate_net_zero_interest, calculate_min_time_net_zero,
      calculate_max_growth]

/-- C5 amended: with a positive numeric return rate and numeric
`loan_amount` and `monthly_budget` (and an integer
`optimization_period_years`, of any sign), each of the three endpoints
terminates without an exception and returns a defined result record — in the
exact rational model every numeric field is a rational number, so no field is
NaN or infinite.  (Missing or non-numeric loan/budget/period values instead
raise `TypeError`, see the counterexample.) -/
theorem C5_defined_on_numeric_inputs (la mb r : ℚ) (pz : ℤ) (hr : 0 < r) :
    calculate_net_zero_interest (Param.num la) (Param.num mb) (Param.num r) =
      ApiResult.ok (netZeroInterestCore la mb r) ∧
    calculate_min_time_net_zero (Param.num la) (Param.num mb) (Param.num r) =
      ApiResult.ok (minTimeNetZeroCore la mb r) ∧
    calculate_max_growth (Param.num la) (Param.num mb) (Param.num r)
      (PeriodParam.val pz) = ApiResult.ok (maxGrowthCore la mb r pz) := by
  refine ⟨?_, ?_, ?_⟩ <;>
    · simp only [calculate_net_zero_interest, calculate_min_time_net_zero,
        calculate_max_growth]
      rw [if_neg (not_le.2 hr)]

/-- Witness for C5 (amended) at loan `7`, budget `11`, rate `5`, period `-3`. -/
theorem C5_defined_on_numeric_inputs_witness :
    0 < (5:ℚ) ∧
    (calculate_net_zero_interest (Param.num 7) (Param.num 11) (Param.num 5) =
      ApiResult.ok (netZeroInterestCore 7 11 5) ∧
    calculate_min_time_net_zero (Param.num 7) (Param.num 11) (Param.num 5) =
      ApiResult.ok (minTimeNetZeroCore 7 11 5) ∧
    calculate_max_growth (Param.num 7) (Param.num 11) (Param.num 5)
      (PeriodParam.val (-3)) = ApiResult.ok (maxGrowthCore 7 11 5 (-3))) :=
  ⟨by norm_num, C5_defined_on_numeric_inputs 7 11 5 (-3) (by norm_num)⟩
